import Mathlib

/-!
Verification of the dbq data-access layer (null.go, tx.go, errors.go and the
generic row helpers) against its natural-language specification.

The Go code is shallowly embedded: each Go function relevant to the claims is
translated into an executable Lean definition over explicit state, with machine
integers as `Int` plus explicit range checks, dynamic (interface) values as
small inductive types, and fallible operations returning the resulting state
together with an `Option String` error (mirroring how the Go methods mutate
the receiver and return an `error`).
-/

set_option autoImplicit false

namespace Dbq

/-- JsonData models a JSON payload handed to `UnmarshalJSON` as the token it
parses to. Each constructor stands for the canonical byte form of that token;
`jnull` is the exact byte sequence `null` that `nullBytes` holds in null.go.
A number literal is represented by its integer value together with an
`integral` flag: `integral = false` stands for a literal containing a
fraction or exponent part (e.g. `1.2345`), which the standard library
rejects when decoding into an integer type. `malformed` stands for a payload
that is not syntactically valid JSON (e.g. `:)`). -/
inductive JsonData where
  | jnull
  | jtrue
  | jfalse
  | jstring (s : String)
  | jnumber (v : Int) (integral : Bool)
  | jobject
  | jarray
  | malformed
  deriving DecidableEq, Repr

/-- IntKind describes a Go integer kind by its representable range. The Go
`Number` constraint in null.go admits byte, int, int16, int32, int64 (and
float64, which is not an integer kind). -/
structure IntKind where
  lo : Int
  hi : Int
  deriving DecidableEq, Repr

/-- Go `byte` (uint8): range 0 .. 255. -/
def goByteKind : IntKind := ⟨0, 255⟩

/-- Go `int` on a 64-bit platform: range -2^63 .. 2^63 - 1. -/
def goIntKind : IntKind := ⟨-(2 ^ 63 : Int), 2 ^ 63 - 1⟩

/-- Go `int16`: range -2^15 .. 2^15 - 1. -/
def goInt16Kind : IntKind := ⟨-(2 ^ 15 : Int), 2 ^ 15 - 1⟩

/-- Go `int32`: range -2^31 .. 2^31 - 1. -/
def goInt32Kind : IntKind := ⟨-(2 ^ 31 : Int), 2 ^ 31 - 1⟩

/-- Go `int64`: range -2^63 .. 2^63 - 1. -/
def goInt64Kind : IntKind := ⟨-(2 ^ 63 : Int), 2 ^ 63 - 1⟩

/-- jsonUnmarshalInt models `encoding/json.Unmarshal(data, target)` for a Go
target of integer kind `k`: the decoder accepts only a number token whose
literal has no fraction or exponent part and whose value fits the range of
`k` (otherwise `strconv.ParseInt` or the overflow check fails); a bool,
string, object or array token is a type error; and decoding the JSON `null`
token into a non-pointer scalar is, per the standard library, a no-op that
leaves the target unchanged and reports no error. `cur` is the current value
of the target, returned unchanged in that no-op case; on error the target is
not written. -/
def jsonUnmarshalInt (k : IntKind) (data : JsonData) (cur : Int) : Except String Int :=
  match data with
  | .jnull => .ok cur
  | .jnumber v integral =>
      if integral then
        if k.lo ≤ v ∧ v ≤ k.hi then .ok v
        else .error "number overflows integer type"
      else .error "cannot unmarshal non-integral number into value of integer type"
  | .jtrue => .error "cannot unmarshal bool into value of integer type"
  | .jfalse => .error "cannot unmarshal bool into value of integer type"
  | .jstring _ => .error "cannot unmarshal string into value of integer type"
  | .jobject => .error "cannot unmarshal object into value of integer type"
  | .jarray => .error "cannot unmarshal array into value of integer type"
  | .malformed => .error "invalid character"

/-- jsonMarshalInt models `encoding/json.Marshal` of a Go integer: the decimal
text of the value, an integral number literal. -/
def jsonMarshalInt (v : Int) : JsonData := .jnumber v true

/-- jsonUnmarshalBool models `encoding/json.Unmarshal` into a Go bool. -/
def jsonUnmarshalBool (data : JsonData) (cur : Bool) : Except String Bool :=
  match data with
  | .jnull => .ok cur
  | .jtrue => .ok true
  | .jfalse => .ok false
  | .jstring _ => .error "cannot unmarshal string into value of type bool"
  | .jnumber _ _ => .error "cannot unmarshal number into value of type bool"
  | .jobject => .error "cannot unmarshal object into value of type bool"
  | .jarray => .error "cannot unmarshal array into value of type bool"
  | .malformed => .error "invalid character"

/-- jsonMarshalBool models `encoding/json.Marshal` of a Go bool. -/
def jsonMarshalBool (b : Bool) : JsonData := if b then .jtrue else .jfalse

/-- jsonUnmarshalString models `encoding/json.Unmarshal` into a Go string. -/
def jsonUnmarshalString (data : JsonData) (cur : String) : Except String String :=
  match data with
  | .jnull => .ok cur
  | .jstring s => .ok s
  | .jtrue => .error "cannot unmarshal bool into value of type string"
  | .jfalse => .error "cannot unmarshal bool into value of type string"
  | .jnumber _ _ => .error "cannot unmarshal number into value of type string"
  | .jobject => .error "cannot unmarshal object into value of type string"
  | .jarray => .error "cannot unmarshal array into value of type string"
  | .malformed => .error "invalid character"

/-- jsonMarshalString models `encoding/json.Marshal` of a Go string. -/
def jsonMarshalString (s : String) : JsonData := .jstring s

/-- Null mirrors the generic struct `Null[T]` of null.go: a value of the
scalar type `T` together with a validity flag. -/
structure Null (T : Type) where
  Val : T
  Valid : Bool
  deriving DecidableEq, Repr

/-- New mirrors `New[T]` of null.go. -/
def New {T : Type} (val : T) (valid : Bool) : Null T :=
  { Val := val, Valid := valid }

/-- GoZero carries the Go zero value of a scalar type (`var zero T`). -/
class GoZero (T : Type) where
  zero : T

instance : GoZero Int := ⟨0⟩
instance : GoZero Bool := ⟨false⟩
instance : GoZero String := ⟨""⟩

/-- freshNull is the zero value of the struct `Null[T]` itself, i.e. what
`var n Null[T]` declares before any decoding: zero `Val`, `Valid = false`. -/
def freshNull (T : Type) [GoZero T] : Null T :=
  { Val := GoZero.zero, Valid := false }

/-- GoValue models the dynamic (`any`) argument of `Scan`: the driver either
hands the native null sentinel (`nil`), a value already of type `T`, or a
value of some other dynamic type. For the last case the constructor carries
the outcome of `convertAssign` on that value. `convertAssign` is not among
the sources of this repository; modelled from the spec: a best-effort
coercion into `T` that either yields a converted value or a coercion
error. -/
inductive GoValue (T : Type) where
  | nil
  | ofT (v : T)
  | other (coerce : Except String T)

/-- Null.Scan mirrors `Null[T].Scan` of null.go. A `nil` driver value zeroes
`Val` and clears `Valid`; a value already of type `T` is assigned and marked
valid; otherwise the failed two-result type assertion `value.(T)` first
writes the zero value of `T` into `n.Val`, then `convertAssign` runs on the
original dynamic value, `Valid` is set to whether it succeeded, and its error
(if any) is returned. The model keeps `Val` at the zero value when
`convertAssign` fails, since on failure it does not produce a converted
value. The result pairs the updated receiver with the returned error. -/
def Null.Scan {T : Type} [GoZero T] (n : Null T) (value : GoValue T) :
    Null T × Option String :=
  match value with
  | .nil => ({ Val := GoZero.zero, Valid := false }, none)
  | .ofT v => ({ Val := v, Valid := true }, none)
  | .other coerce =>
      match coerce with
      | .ok v => ({ Val := v, Valid := true }, none)
      | .error e => ({ Val := (GoZero.zero : T), Valid := false }, some e)

/-- DriverValue models `database/sql/driver.Value`: either the native null
sentinel (`nil`) or an actual value passed through unconverted. -/
inductive DriverValue (T : Type) where
  | null
  | val (v : T)
  deriving DecidableEq, Repr

/-- Null.Value mirrors `Null[T].Value` of null.go: the null sentinel (and no
error) when invalid, otherwise `Val` as-is (and no error). -/
def Null.Value {T : Type} (n : Null T) : DriverValue T × Option String :=
  if !n.Valid then (DriverValue.null, none) else (DriverValue.val n.Val, none)

/-- Null.UnmarshalJSON mirrors `Null[T].UnmarshalJSON` of null.go,
parameterised by the standard-library decoder `dec` for `T` (which receives
the current `n.Val` as the target it may leave untouched). If the payload is
byte-equal to `nullBytes` the method only clears `Valid` and succeeds,
leaving `Val` as it was. Otherwise `json.Unmarshal(data, n.Val)` runs: on
failure the method returns the wrapped error immediately, having modified
neither `Val` (the scalar decoders do not write on failure) nor `Valid`; on
success `Val` holds the decoded value and `Valid` is set to true. The result
pairs the updated receiver with the returned error. -/
def Null.UnmarshalJSON {T : Type} (dec : JsonData → T → Except String T)
    (n : Null T) (data : JsonData) : Null T × Option String :=
  if data = JsonData.jnull then
    ({ n with Valid := false }, none)
  else
    match dec data n.Val with
    | .error e => (n, some ("null: could not unmarshal JSON: " ++ e))
    | .ok v => ({ Val := v, Valid := true }, none)

/-- Null.MarshalJSON mirrors `Null[T].MarshalJSON` of null.go, parameterised
by the standard-library encoder for `T`: the bytes `null` when invalid,
otherwise the encoding of `Val`. Neither branch reports an error for the
scalar kinds modelled here. -/
def Null.MarshalJSON {T : Type} (enc : T → JsonData) (n : Null T) :
    JsonData × Option String :=
  if !n.Valid then (JsonData.jnull, none) else (enc n.Val, none)

/-- Null.Equal mirrors `Null[T].Equal` of null.go:
`n.Valid == other.Valid && (!n.Valid || n.Val == other.Val)`. -/
def Null.Equal {T : Type} [DecidableEq T] (n other : Null T) : Bool :=
  (n.Valid == other.Valid) && (!n.Valid || decide (n.Val = other.Val))

/-- GoLocation models the `*time.Location` a `time.Time` points at: the
identity of the pointer (named zones) together with its offset in seconds
east of UTC. Go compares locations by POINTER; this model compares them by
(name, offset) value, which can only identify locations that Go would keep
apart — so any inequality the model proves also holds in Go. -/
structure GoLocation where
  name : String
  offset : Int
  deriving DecidableEq, Repr

/-- goUTC is the `time.UTC` location. -/
def goUTC : GoLocation := { name := "UTC", offset := 0 }

/-- goLocal is the `time.Local` location of a machine whose local zone is one
hour east of UTC (the concrete offset is irrelevant to the theorems). -/
def goLocal : GoLocation := { name := "Local", offset := 3600 }

/-- GoTime models `time.Time` by the data Go `==` compares structurally:
the wall-clock reading (`sec` seconds and `nsec` nanoseconds of the `wall`
and `ext` fields), the monotonic clock reading when one is present (set by
`time.Now`, stripped by serialization and by location changes), and the
location pointer. Two `time.Time` values differing in any of these compare
unequal under Go `==`, which is the comparison `Null.Equal` performs. -/
structure GoTime where
  sec : Int
  nsec : Int
  mono : Option Int
  loc : GoLocation
  deriving DecidableEq, Repr

instance : GoZero GoTime where
  zero := { sec := 0, nsec := 0, mono := none, loc := goUTC }

/-- goNowLocal is a concrete `time.Time` as produced by `time.Now()`: a wall
reading, a monotonic clock reading present, and the Local location. -/
def goNowLocal : GoTime :=
  { sec := 1700000000, nsec := 500, mono := some 1, loc := goLocal }

/-- splitSeg splits a character list at the first occurrence of `sep`,
returning the segment before it and the rest. -/
def splitSeg (sep : Char) : List Char → List Char × List Char
  | [] => ([], [])
  | c :: rest =>
      if c = sep then ([], rest)
      else
        let p := splitSeg sep rest
        (c :: p.1, p.2)

/-- natOfDigitsAux folds decimal digits into a number, failing on any
non-digit character. -/
def natOfDigitsAux : List Char → Nat → Option Nat
  | [], acc => some acc
  | c :: rest, acc =>
      if '0' ≤ c ∧ c ≤ '9' then natOfDigitsAux rest (acc * 10 + (c.toNat - 48))
      else none

/-- natOfChars reads a nonempty decimal digit sequence. -/
def natOfChars : List Char → Option Nat
  | [] => none
  | cs => natOfDigitsAux cs 0

/-- intOfChars reads an optionally negated decimal integer. -/
def intOfChars : List Char → Option Int
  | '-' :: rest => (natOfChars rest).map fun n => -(n : Int)
  | cs => (natOfChars cs).map fun n => (n : Int)

/-- rfc3339Render is the canonical stand-in for the RFC3339 text of an
instant: an RFC3339 string determines exactly the wall seconds, the wall
nanoseconds and the zone offset of the encoded time, so the model renders
that triple injectively (`<sec>s<nsec>n<offset>o`) instead of reproducing
the date formatting, which carries no further information. -/
def rfc3339Render (sec nsec offset : Int) : String :=
  toString sec ++ "s" ++ toString nsec ++ "n" ++ toString offset ++ "o"

/-- rfc3339Parse recovers the (sec, nsec, offset) triple an RFC3339 string
denotes, failing on strings outside the stand-in grammar just as
`time.Parse` fails on strings that are not RFC3339. -/
def rfc3339Parse (s : String) : Option (Int × Int × Int) :=
  let p1 := splitSeg 's' s.data
  let p2 := splitSeg 'n' p1.2
  let p3 := splitSeg 'o' p2.2
  if p3.2 = [] then
    match intOfChars p1.1, intOfChars p2.1, intOfChars p3.1 with
    | some a, some b, some c => some (a, b, c)
    | _, _, _ => none
  else none

/-- jsonMarshalTime models `time.Time.MarshalJSON`: the RFC3339Nano text of
the instant, as a JSON string token. The encoding writes the wall clock and
the zone offset only: the monotonic reading and the location identity are
not representable in RFC3339 and are dropped. (The year-range error of the
real method concerns years outside 0..9999 and is not modelled.) -/
def jsonMarshalTime (t : GoTime) : JsonData :=
  .jstring (rfc3339Render t.sec t.nsec t.loc.offset)

/-- jsonUnmarshalTime models `time.Time.UnmarshalJSON`: a JSON `null` token
is an explicit no-op; a string token is parsed with `time.Parse(RFC3339, s)`,
which on success yields a time with NO monotonic reading whose location is
`time.UTC` for a zero zone offset and a fixed zone built from the offset
otherwise (never the `time.Local` pointer); any other token kind is a type
error. -/
def jsonUnmarshalTime (data : JsonData) (cur : GoTime) : Except String GoTime :=
  match data with
  | .jnull => .ok cur
  | .jstring s =>
      match rfc3339Parse s with
      | some (sec, nsec, off) =>
          .ok { sec := sec, nsec := nsec, mono := none,
                loc := if off = 0 then goUTC else { name := "", offset := off } }
      | none => .error "parsing time: cannot parse value as RFC3339"
  | .jtrue => .error "cannot unmarshal bool into value of type time.Time"
  | .jfalse => .error "cannot unmarshal bool into value of type time.Time"
  | .jnumber _ _ => .error "cannot unmarshal number into value of type time.Time"
  | .jobject => .error "cannot unmarshal object into value of type time.Time"
  | .jarray => .error "cannot unmarshal array into value of type time.Time"
  | .malformed => .error "invalid character"

/-- NotFoundError mirrors the struct of errors.go. -/
structure NotFoundError where
  DataSource : String
  deriving DecidableEq, Repr

/-- NotFoundError.Error mirrors the `Error` method of errors.go. -/
def NotFoundError.Error (e : NotFoundError) : String :=
  if e.DataSource ≠ "" then "no data found in " ++ e.DataSource
  else "no data found"

/-- ScanOutcome abstracts what `ctx.QueryRow(query, args...).Scan(result)`
reports to the generic helper `QueryRow`: a successfully populated row,
the sentinel `sql.ErrNoRows`, or some other scan error. -/
inductive ScanOutcome (T : Type) where
  | ok (v : T)
  | errNoRows
  | errOther (e : String)
  deriving DecidableEq, Repr

/-- QueryRowResult is the observable outcome of the generic helper
`QueryRow[T]`: the scanned value, a `NotFoundError` (returned alongside the
zero value of `T`), a pass-through scan error, or a runtime panic. The
panic case arises from the unchecked type assertion `.(string)` on the
context value under `CtxDataSourceKey`, which panics when the context
holds no string under that key. -/
inductive QueryRowResult (T : Type) where
  | ok (v : T)
  | notFound (e : NotFoundError)
  | err (e : String)
  | panicked
  deriving DecidableEq, Repr

/-- QueryRow mirrors the generic helper `QueryRow[T]` of the row-helper file:
`dataSource` is the string stored in the context under `CtxDataSourceKey`
(or `none` when the key is absent or holds a non-string), and `scan` is the
outcome of the single-row scan. On `sql.ErrNoRows` the helper builds a
`NotFoundError` whose `DataSource` is the asserted context value; on any
other scan error it returns that error as-is. -/
def QueryRow {T : Type} (dataSource : Option String) (scan : ScanOutcome T) :
    QueryRowResult T :=
  match scan with
  | .ok v => .ok v
  | .errNoRows =>
      match dataSource with
      | some ds => .notFound { DataSource := ds }
      | none => .panicked
  | .errOther e => .err e

/-- TxEvent is a finalization action performed on the open transaction. -/
inductive TxEvent where
  | commit
  | rollback
  deriving DecidableEq, Repr

/-- FnOutcome is how the unit of work `fn` passed to `TxWithOpts` terminates:
a normal return carrying its error result (`none` for a nil error), or an
unrecovered panic raised before it could return. -/
inductive FnOutcome where
  | ret (err : Option String)
  | panics
  deriving DecidableEq, Repr

/-- TxEnv fixes the behaviour of the driver during one `TxWithOpts` call:
the error of `conn.BeginTx` inside `AcquireWithOpts` (`none` for success),
and the errors `tx.Commit()` and `tx.Rollback()` would report if called. -/
structure TxEnv where
  beginErr : Option String
  commitErr : Option String
  rollbackErr : Option String
  deriving DecidableEq, Repr

/-- TxResult is the observable outcome of one `TxWithOpts` call: the error
value the caller receives, the final value of the local variable `err` after
the deferred finalizer has run (visible only to the logging check inside the
defer), the finalization actions performed in order, and whether a panic
escaped to the caller. -/
structure TxResult where
  retval : Option String
  finalLocalErr : Option String
  events : List TxEvent
  panicked : Bool
  deriving DecidableEq, Repr

/-- TxWithOpts mirrors `TxProvider.TxWithOpts` of tx.go, evaluated against a
driver behaviour `env` and a unit-of-work outcome `fn`. The translation
follows Go semantics precisely:
the function has a single UNNAMED result, so the statement `return err`
copies the current value of the local `err` into the result slot before the
deferred function runs, and later assignments to the local `err` inside the
defer cannot change the value returned to the caller;
if `fn` panics, the deferred function recovers (so no panic escapes), the
assignment `err = fn(tx)` never happened, the local `err` is still the nil
left by the successful acquire, hence the finalizer takes the commit branch,
and after recovery the function returns the zero value of its unnamed result,
i.e. a nil error;
on an acquire failure the function returns that error before the defer is
even installed, and no finalization happens. -/
def TxWithOpts (env : TxEnv) (fn : FnOutcome) : TxResult :=
  match env.beginErr with
  | some e =>
      { retval := some e, finalLocalErr := some e, events := [], panicked := false }
  | none =>
      match fn with
      | .ret e =>
          { retval := e
            finalLocalErr := if e = none then env.commitErr else env.rollbackErr
            events := if e = none then [TxEvent.commit] else [TxEvent.rollback]
            panicked := false }
      | .panics =>
          { retval := none
            finalLocalErr := env.commitErr
            events := [TxEvent.commit]
            panicked := false }

/-- C1: evaluation of `TxWithOpts` at the failing input — begin succeeds and
the unit of work terminates by an unrecovered panic. The panic is indeed
caught at the boundary (`panicked = false`), but the transaction is finalized
by a COMMIT, not a rollback: the local `err` is still nil when the deferred
finalizer runs, so the commit branch is taken. This contradicts the claim
that a panicking unit of work is finalized by a rollback and never by a
commit. -/
theorem C1_panic_commits :
    TxWithOpts { beginErr := none, commitErr := none, rollbackErr := none }
        FnOutcome.panics =
      { retval := none, finalLocalErr := none,
        events := [TxEvent.commit], panicked := false } := rfl

/-- C2: evaluation of `TxWithOpts` at the failing input — begin succeeds, the
unit of work returns the error `boom`, and the rollback fails with the error
`rollback failed`. The caller receives `boom`, not the finalization error:
the deferred assignment of the rollback error reaches only the local
variable (`finalLocalErr`), never the unnamed result. This contradicts the
claim that a finalization failure is returned in place of the unit-of-work
error. -/
theorem C2_finalize_error_discarded :
    TxWithOpts { beginErr := none, commitErr := none,
                 rollbackErr := some "rollback failed" }
        (FnOutcome.ret (some "boom")) =
      { retval := some "boom", finalLocalErr := some "rollback failed",
        events := [TxEvent.rollback], panicked := false } := rfl

/-- C3: for every unit of work that returns normally after a successful
acquire, the transaction is finalized exactly once — committed exactly once
and never rolled back when the unit of work returned no error, rolled back
exactly once and never committed when it returned an error. -/
theorem C3_finalize_exactly_once (env : TxEnv) (e : Option String)
    (hb : env.beginErr = none) :
    (e = none →
      (TxWithOpts env (FnOutcome.ret e)).events = [TxEvent.commit]) ∧
    (e ≠ none →
      (TxWithOpts env (FnOutcome.ret e)).events = [TxEvent.rollback]) := by
  unfold TxWithOpts
  rw [hb]
  constructor
  · intro he
    simp [he]
  · intro he
    simp [he]

/-- C3 witness: the commit and rollback branches at concrete inputs. -/
theorem C3_finalize_exactly_once_witness :
    ((TxWithOpts { beginErr := none, commitErr := none, rollbackErr := none }
        (FnOutcome.ret none)).events = [TxEvent.commit]) ∧
    ((TxWithOpts { beginErr := none, commitErr := none, rollbackErr := none }
        (FnOutcome.ret (some "boom"))).events = [TxEvent.rollback]) :=
  ⟨(C3_finalize_exactly_once
      { beginErr := none, commitErr := none, rollbackErr := none } none rfl).1 rfl,
   (C3_finalize_exactly_once
      { beginErr := none, commitErr := none, rollbackErr := none }
      (some "boom") rfl).2 (Option.some_ne_none "boom")⟩

/-- C8: a zero-row single-row query returns a `NotFoundError` carrying the
data-source identifier found in the context; when the identifier is absent
from the context the helper panics rather than tolerating it silently; and
every other scan error is returned unchanged. -/
theorem C8_notfound_mapping {T : Type} (s e : String) (ds : Option String) :
    (QueryRow (some s) (ScanOutcome.errNoRows : ScanOutcome T) =
      QueryRowResult.notFound { DataSource := s }) ∧
    (QueryRow none (ScanOutcome.errNoRows : ScanOutcome T) =
      QueryRowResult.panicked) ∧
    (QueryRow ds (ScanOutcome.errOther e : ScanOutcome T) =
      QueryRowResult.err e) := by
  refine ⟨rfl, rfl, ?_⟩
  cases ds <;> rfl

/-- C9: `Equal a b` is true exactly when both instances are invalid, or both
are valid with equal `Val`; in particular two invalid instances are equal
even when their stored `Val` fields differ. -/
theorem C9_equal_iff {T : Type} [DecidableEq T] (a b : Null T) :
    Null.Equal a b = true ↔
      ((a.Valid = false ∧ b.Valid = false) ∨
       (a.Valid = true ∧ b.Valid = true ∧ a.Val = b.Val)) := by
  rcases a with ⟨av, avalid⟩
  rcases b with ⟨bv, bvalid⟩
  cases avalid <;> cases bvalid <;> simp [Null.Equal]

/-- C10: the two null-decode paths differ in what they leave in `Val`:
`Scan` of the native null sentinel clears `Valid` and resets `Val` to the
zero value of `T`, whereas `UnmarshalJSON` of the null literal clears
`Valid` but leaves the previously stored `Val` unchanged. -/
theorem C10_null_paths {T : Type} [GoZero T]
    (dec : JsonData → T → Except String T) (n : Null T) :
    (Null.Scan n GoValue.nil =
      ({ Val := (GoZero.zero : T), Valid := false }, none)) ∧
    (Null.UnmarshalJSON dec n JsonData.jnull =
      ({ Val := n.Val, Valid := false }, none)) :=
  ⟨rfl, rfl⟩

/-- C4 counterexample: a previously VALID instance is not left invalid by a
failing decode. With receiver `Null[int]{Val: 0, Valid: true}` and payload
`true` (a bool literal, a decode failure for an integer kind),
`UnmarshalJSON` returns an error yet `Valid` is still true afterwards —
refuting the claim that a failing decode leaves the instance marked invalid
whatever its prior state. -/
theorem C4_counterexample :
    ((Null.UnmarshalJSON (jsonUnmarshalInt goIntKind)
        { Val := 0, Valid := true } JsonData.jtrue).2.isSome = true) ∧
    ((Null.UnmarshalJSON (jsonUnmarshalInt goIntKind)
        { Val := 0, Valid := true } JsonData.jtrue).1.Valid = true) :=
  ⟨rfl, rfl⟩

/-- C4 (amended): for every `Null[T]` instance and every JSON payload whose
textual decode fails, `UnmarshalJSON` returns an error and leaves the
receiver entirely unchanged — both `Val` and `Valid` keep their prior
values. Hence an instance that was invalid before the call remains invalid,
but a previously valid instance stays marked valid. -/
theorem C4_fail_state {T : Type} (dec : JsonData → T → Except String T)
    (n : Null T) (data : JsonData) (e : String)
    (hnull : data ≠ JsonData.jnull)
    (hdec : dec data n.Val = Except.error e) :
    Null.UnmarshalJSON dec n data =
      (n, some ("null: could not unmarshal JSON: " ++ e)) := by
  unfold Null.UnmarshalJSON
  rw [if_neg hnull, hdec]

/-- C4 witness: a failing bool-into-int decode at a concrete invalid
receiver returns an error and leaves the receiver unchanged. -/
theorem C4_fail_state_witness :
    Null.UnmarshalJSON (jsonUnmarshalInt goIntKind)
        ({ Val := 7, Valid := false } : Null Int) JsonData.jtrue =
      ({ Val := 7, Valid := false },
       some ("null: could not unmarshal JSON: " ++
             "cannot unmarshal bool into value of integer type")) :=
  C4_fail_state (jsonUnmarshalInt goIntKind) { Val := 7, Valid := false }
    JsonData.jtrue "cannot unmarshal bool into value of integer type"
    (by decide) rfl

/-- C5 counterexample: the round-trip claim fails at `T = time.Time`. Take
the valid instance holding `goNowLocal`, a `time.Now()` result. Its JSON
encoding keeps only the wall clock and the zone offset; decoding it into a
fresh `Null[time.Time]` yields a time with no monotonic reading and a
parsed location instead of the `Local` pointer, so `Equal` — which compares
with Go `==` — returns false, refuting the claim that the decoded value is
`Equal` to the original for every valid `Null[T]`. -/
theorem C5_counterexample :
    (Null.UnmarshalJSON jsonUnmarshalTime (freshNull GoTime)
        (Null.MarshalJSON jsonMarshalTime
          ({ Val := goNowLocal, Valid := true } : Null GoTime)).1).1.Equal
      { Val := goNowLocal, Valid := true } = false := by decide

/-- C5 (amended): decoding the text encoding of a valid `Null[T]` into a
fresh `Null[T]` yields a value `Equal` to the original for the integer
kinds (the value of an integer kind fits its representable range), for bool
and for string; encoding an invalid instance yields exactly the null
literal (and no error) regardless of the stored `Val`, for every `T` and
every element encoder; but for `T = time.Time` the round trip yields a
value that is NOT `Equal` to the original whenever the original carries a
monotonic clock reading (as every `time.Now()` result does), because the
JSON encoding does not preserve it. -/
theorem C5_roundtrip :
    (∀ (k : IntKind) (v : Null Int), v.Valid = true →
      k.lo ≤ v.Val → v.Val ≤ k.hi →
      (Null.UnmarshalJSON (jsonUnmarshalInt k) (freshNull Int)
          (Null.MarshalJSON jsonMarshalInt v).1).1.Equal v = true) ∧
    (∀ v : Null Bool, v.Valid = true →
      (Null.UnmarshalJSON jsonUnmarshalBool (freshNull Bool)
          (Null.MarshalJSON jsonMarshalBool v).1).1.Equal v = true) ∧
    (∀ v : Null String, v.Valid = true →
      (Null.UnmarshalJSON jsonUnmarshalString (freshNull String)
          (Null.MarshalJSON jsonMarshalString v).1).1.Equal v = true) ∧
    (∀ (T : Type) (enc : T → JsonData) (v : Null T), v.Valid = false →
      Null.MarshalJSON enc v = (JsonData.jnull, none)) ∧
    (∀ v : Null GoTime, v.Valid = true → v.Val.mono.isSome = true →
      (Null.UnmarshalJSON jsonUnmarshalTime (freshNull GoTime)
          (Null.MarshalJSON jsonMarshalTime v).1).1.Equal v = false) := by
  refine ⟨?_, ?_, ?_, ?_, ?_⟩
  · rintro k ⟨val, valid⟩ hv hlo hhi
    simp only at hv
    subst hv
    simp [Null.MarshalJSON, jsonMarshalInt, Null.UnmarshalJSON,
      jsonUnmarshalInt, freshNull, Null.Equal, hlo, hhi]
  · rintro ⟨val, valid⟩ hv
    simp only at hv
    subst hv
    cases val <;>
      simp [Null.MarshalJSON, jsonMarshalBool, Null.UnmarshalJSON,
        jsonUnmarshalBool, freshNull, Null.Equal]
  · rintro ⟨val, valid⟩ hv
    simp only at hv
    subst hv
    simp [Null.MarshalJSON, jsonMarshalString, Null.UnmarshalJSON,
      jsonUnmarshalString, freshNull, Null.Equal]
  · rintro T enc ⟨val, valid⟩ hv
    simp only at hv
    subst hv
    simp [Null.MarshalJSON]
  · rintro ⟨val, valid⟩ hv hm
    simp only at hv hm
    subst hv
    rcases hp : rfc3339Parse (rfc3339Render val.sec val.nsec val.loc.offset)
      with _ | ⟨a, b, c⟩
    · simp [Null.MarshalJSON, jsonMarshalTime, Null.UnmarshalJSON,
        jsonUnmarshalTime, hp, freshNull, Null.Equal]
    · simp only [Null.MarshalJSON, Bool.not_true, Bool.false_eq_true,
        if_false, jsonMarshalTime]
      unfold Null.UnmarshalJSON
      rw [if_neg (by simp)]
      simp only [jsonUnmarshalTime, hp]
      simp only [Null.Equal, beq_self_eq_true, Bool.true_and, Bool.not_true,
        Bool.false_or, decide_eq_false_iff_not]
      intro h
      rw [← h] at hm
      simp at hm

/-- C5 witness: the round trip at the concrete valid value 12345 of kind
`int`; the null encoding of a concrete invalid instance with a stale
`Val`; and the failed round trip at a concrete `time.Time` carrying a
monotonic reading. -/
theorem C5_roundtrip_witness :
    ((Null.UnmarshalJSON (jsonUnmarshalInt goIntKind) (freshNull Int)
        (Null.MarshalJSON jsonMarshalInt
          ({ Val := 12345, Valid := true } : Null Int)).1).1.Equal
        { Val := 12345, Valid := true } = true) ∧
    (Null.MarshalJSON jsonMarshalInt ({ Val := 777, Valid := false } : Null Int) =
      (JsonData.jnull, none)) ∧
    ((Null.UnmarshalJSON jsonUnmarshalTime (freshNull GoTime)
        (Null.MarshalJSON jsonMarshalTime
          ({ Val := { sec := 42, nsec := 0, mono := some 7, loc := goLocal },
             Valid := true } : Null GoTime)).1).1.Equal
        { Val := { sec := 42, nsec := 0, mono := some 7, loc := goLocal },
          Valid := true } = false) :=
  ⟨C5_roundtrip.1 goIntKind { Val := 12345, Valid := true } rfl
      (by decide) (by decide),
   C5_roundtrip.2.2.2.1 Int jsonMarshalInt { Val := 777, Valid := false } rfl,
   C5_roundtrip.2.2.2.2
     { Val := { sec := 42, nsec := 0, mono := some 7, loc := goLocal },
       Valid := true } rfl rfl⟩

/-- C6: for an integer kind `k` (any kind whose range is nonempty, which
covers byte, int, int16, int32 and int64), decoding the decimal text of the
maximum representable integer succeeds and yields that value marked valid;
decoding the text of the maximum plus one returns a decode error; and
decoding any number literal with a fraction or exponent part returns a
decode error. -/
theorem C6_overflow (k : IntKind) (n : Null Int) (v : Int)
    (hk : k.lo ≤ k.hi) :
    (Null.UnmarshalJSON (jsonUnmarshalInt k) n (JsonData.jnumber k.hi true) =
      ({ Val := k.hi, Valid := true }, none)) ∧
    ((Null.UnmarshalJSON (jsonUnmarshalInt k) n
        (JsonData.jnumber (k.hi + 1) true)).2.isSome = true) ∧
    ((Null.UnmarshalJSON (jsonUnmarshalInt k) n
        (JsonData.jnumber v false)).2.isSome = true) := by
  refine ⟨?_, ?_, ?_⟩
  · simp [Null.UnmarshalJSON, jsonUnmarshalInt, hk]
  · simp [Null.UnmarshalJSON, jsonUnmarshalInt]
  · simp [Null.UnmarshalJSON, jsonUnmarshalInt]

/-- C6 witness: the overflow boundary for the Go `int` kind, whose maximum
is 2^63 - 1, evaluated at a fresh receiver and with 1.5-style payload
represented by a non-integral literal. -/
theorem C6_overflow_witness :
    (Null.UnmarshalJSON (jsonUnmarshalInt goIntKind)
        ({ Val := 0, Valid := false } : Null Int)
        (JsonData.jnumber goIntKind.hi true) =
      ({ Val := goIntKind.hi, Valid := true }, none)) ∧
    ((Null.UnmarshalJSON (jsonUnmarshalInt goIntKind)
        ({ Val := 0, Valid := false } : Null Int)
        (JsonData.jnumber (goIntKind.hi + 1) true)).2.isSome = true) ∧
    ((Null.UnmarshalJSON (jsonUnmarshalInt goIntKind)
        ({ Val := 0, Valid := false } : Null Int)
        (JsonData.jnumber 1 false)).2.isSome = true) :=
  C6_overflow goIntKind { Val := 0, Valid := false } 1 (by decide)

/-- C7: for every invalid `Null[T]`, `Value` returns the native null
sentinel with no error; and for every `Null[T]` instance, `Scan` of the
native null sentinel succeeds and leaves the instance invalid with `Val`
equal to the zero value of `T`. -/
theorem C7_driver_null {T : Type} [GoZero T] (n : Null T) :
    (n.Valid = false →
      Null.Value n = (DriverValue.null, none)) ∧
    (Null.Scan n GoValue.nil =
      ({ Val := (GoZero.zero : T), Valid := false }, none)) := by
  constructor
  · intro hv
    simp [Null.Value, hv]
  · rfl

/-- C7 witness: a concrete invalid instance with stale `Val` encodes to the
null sentinel, and scanning the null sentinel into a concrete valid
instance zeroes it and clears validity. -/
theorem C7_driver_null_witness :
    (Null.Value ({ Val := 5, Valid := false } : Null Int) =
      (DriverValue.null, none)) ∧
    (Null.Scan ({ Val := 5, Valid := true } : Null Int) GoValue.nil =
      ({ Val := 0, Valid := false }, none)) :=
  ⟨(C7_driver_null ({ Val := 5, Valid := false } : Null Int)).1 rfl,
   (C7_driver_null ({ Val := 5, Valid := true } : Null Int)).2⟩

end Dbq
